import Mathlib

/- A shallow embedding of the TalentLink backend contract-lifecycle core:
the Django models, post_save signal receivers and DRF view actions of
accounts/models.py, accounts/signals.py and accounts/views.py.

Rows are Lean structures, tables are lists of rows, and the database is a
record of tables together with a fresh-id counter standing for the
autoincrement sequence. `save()` is an upsert followed by the synchronous
post_save receivers, exactly as Django dispatches them. Statuses are the
status strings of the source ("Pending", "Accepted", "Active", "Completed", ...). -/

namespace TalentLink

structure User where
  id : Nat
  username : String
  is_client : Bool
  is_freelancer : Bool
deriving Repr, DecidableEq

structure Project where
  id : Nat
  client : Nat
  title : String
deriving Repr, DecidableEq

structure Proposal where
  id : Nat
  project : Nat
  freelancer : Nat
  proposal_text : String
  bid_amount : Int
  status : String
deriving Repr, DecidableEq

structure Contract where
  id : Nat
  proposal : Nat
  client : Nat
  freelancer : Nat
  payment_amount : Int
  status : String
  rating : Option Nat
  review : Option String
deriving Repr, DecidableEq

structure Message where
  id : Nat
  contract : Nat
  sender : Nat
  receiver : Nat
  text : String
  is_read : Bool
deriving Repr, DecidableEq

structure Notification where
  id : Nat
  user : Nat
  message : String
  link : Option String
  notification_type : String
  is_read : Bool
deriving Repr, DecidableEq

structure DB where
  users : List User
  projects : List Project
  proposals : List Proposal
  contracts : List Contract
  messages : List Message
  notifications : List Notification
  nextId : Nat
deriving Repr, DecidableEq

/-- Row lookup by primary key on the users table. -/
def findUser (db : DB) (uid : Nat) : Option User :=
  db.users.find? (fun u => u.id == uid)

/-- Row lookup by primary key on the projects table. -/
def findProject (db : DB) (pid : Nat) : Option Project :=
  db.projects.find? (fun pr => pr.id == pid)

/-- Row lookup by primary key on the contracts table
(`get_object_or_404(Contract, pk=pk)`). -/
def findContract (db : DB) (cid : Nat) : Option Contract :=
  db.contracts.find? (fun c => c.id == cid)

/-- The contract related to a proposal through the one-to-one field: both
the related-object hasattr guard of models.py and the
filter-exists guard of signals.py
resolve to this lookup. -/
def contractOfProposal (db : DB) (proposalId : Nat) : Option Contract :=
  db.contracts.find? (fun c => c.proposal == proposalId)

/-- Dereference `proposal.project.client` as a foreign key (None when the
project row is missing). -/
def projectClientOf (db : DB) (pid : Nat) : Option Nat :=
  (findProject db pid).map (fun pr => pr.client)

/-- Dereference `project.title`, empty string when the row is missing. -/
def projectTitleOf (db : DB) (pid : Nat) : String :=
  ((findProject db pid).map (fun pr => pr.title)).getD ""

/-- Dereference `contract.proposal.project.title`: the proposal row, then
its project. -/
def proposalProjectTitleOf (db : DB) (proposalId : Nat) : String :=
  match db.proposals.find? (fun p => p.id == proposalId) with
  | some p => projectTitleOf db p.project
  | none => ""

/-- Dereference `user.username`, empty string when the row is missing. -/
def usernameOf (db : DB) (uid : Nat) : String :=
  ((findUser db uid).map (fun u => u.username)).getD ""

/-- Django `Notification.objects.create(...)`: append a row with the model
defaults where a field is not passed (`is_read = False`; callers pass
`link = none` for the NULL default and `"system"` for the default type). -/
def notificationCreate (db : DB) (user : Nat) (message : String)
    (link : Option String) (ntype : String) : DB :=
  { db with
    notifications :=
      db.notifications ++ [⟨db.nextId, user, message, link, ntype, false⟩],
    nextId := db.nextId + 1 }

/-- The `create_notification(user, message, link="")` helper of
accounts/views.py: `notification_type` is left at its "system" default. -/
def create_notification (db : DB) (user : Nat) (message : String)
    (link : String) : DB :=
  notificationCreate db user message (some link) "system"

/-- post_save receiver `notify_on_contract_status_change` of
accounts/models.py: whenever a contract is saved with status "Completed",
notify the client and then the freelancer, both referencing the project
title. -/
def notify_on_contract_status_change (db : DB) ( inst : Contract) : DB :=
  if inst.status == "Completed" then
    let title := proposalProjectTitleOf db inst.proposal
    let db1 := notificationCreate db inst.client
      ("Your project \x27" ++ title ++ "\x27 has been marked as completed.")
      (some ("/contracts/" ++ toString inst.id ++ "/")) "project"
    notificationCreate db1 inst.freelancer
      ("You have successfully completed the project \x27" ++ title ++ "\x27.")
      (some ("/contracts/" ++ toString inst.id ++ "/")) "project"
  else db

/-- Replace the contract row that has the id of the instance, or insert it. -/
def upsertContract (l : List Contract) (c : Contract) : List Contract :=
  if l.any (fun x => x.id == c.id) then
    l.map (fun x => if x.id == c.id then c else x)
  else l ++ [c]

/-- Django `contract.save()`: persist the row, then run the post_save receiver
registered for `Contract`. -/
def contractSave (db : DB) (c : Contract) : DB :=
  notify_on_contract_status_change
    { db with contracts := upsertContract db.contracts c } c

/-- Django `Contract.objects.create(...)`: insert with a fresh id; `rating`
and `review` take their NULL defaults; post_save fires as for any save. -/
def contractCreate (db : DB) (proposal client freelancer : Nat)
    (payment : Int) (status : String) : DB × Contract :=
  let c : Contract :=
    ⟨db.nextId, proposal, client, freelancer, payment, status, none, none⟩
  (notify_on_contract_status_change
     { db with contracts := db.contracts ++ [c], nextId := db.nextId + 1 } c,
   c)

/-- post_save receiver `create_contract_on_accept` of accounts/models.py:
when a proposal is saved with status "Accepted" and no related contract
exists (the hasattr related-object guard), create one, denormalizing
client, freelancer and bid amount, directly into status "Active". -/
def create_contract_on_accept_models (db : DB) ( inst : Proposal) : DB :=
  if inst.status == "Accepted" &&
      (contractOfProposal db inst.id).isNone then
    (contractCreate db inst.id
      ((projectClientOf db inst.project).getD 0)
      inst.freelancer inst.bid_amount "Active").1
  else db

/-- post_save receiver `create_contract_on_accept` of accounts/signals.py:
same effect, with the guard written as a filter-exists query. -/
def create_contract_on_accept_signals (db : DB) ( inst : Proposal) : DB :=
  if inst.status == "Accepted" &&
      (contractOfProposal db inst.id).isNone then
    (contractCreate db inst.id
      ((projectClientOf db inst.project).getD 0)
      inst.freelancer inst.bid_amount "Active").1
  else db

/-- Replace the proposal row that has the id of the instance, or insert it. -/
def upsertProposal (l : List Proposal) (p : Proposal) : List Proposal :=
  if l.any (fun x => x.id == p.id) then
    l.map (fun x => if x.id == p.id then p else x)
  else l ++ [p]

/-- Modelled from the spec: the AppConfig that imports accounts/signals.py
is not under src/; per the spec the post_save hooks are "defined in two
places redundantly" (models.py and signals.py), so `proposal.save()`
persists the row and runs both registered `create_contract_on_accept`
receivers, the one of models.py first (import order). -/
def proposalSave (db : DB) (p : Proposal) : DB :=
  let db1 := { db with proposals := upsertProposal db.proposals p }
  create_contract_on_accept_signals
    (create_contract_on_accept_models db1 p) p

/-- post_save receiver `create_notification_on_message` of
accounts/models.py: on creation of a message, notify its receiver with
`notification_type = "message"`. -/
def create_notification_on_message_models (db : DB) ( inst : Message)
    (created : Bool) : DB :=
  if created then
    notificationCreate db inst.receiver
      ("New message from " ++ usernameOf db inst.sender)
      (some ("/contracts/" ++ toString inst.contract ++ "/chat"))
      "message"
  else db

/-- post_save receiver `create_notification_on_message` of
accounts/signals.py: same message and link, but `notification_type` is
left at its "system" default. -/
def create_notification_on_message_signals (db : DB) ( inst : Message)
    (created : Bool) : DB :=
  if created then
    notificationCreate db inst.receiver
      ("New message from " ++ usernameOf db inst.sender)
      (some ("/contracts/" ++ toString inst.contract ++ "/chat"))
      "system"
  else db

/-- Modelled from the spec: as for `proposalSave`, both redundantly
registered `create_notification_on_message` receivers run on message
creation (`created = True`), the one of models.py first. -/
def messageCreate (db : DB) (contract sender receiver : Nat)
    (text : String) : DB × Message :=
  let m : Message := ⟨db.nextId, contract, sender, receiver, text, false⟩
  let db1 := { db with messages := db.messages ++ [m], nextId := db.nextId + 1 }
  (create_notification_on_message_signals
     (create_notification_on_message_models db1 m true) m true,
   m)

/-- The typed failures of the API surface: 404 is NotFound, 403 is
Unauthorized, the 400 of `accept` ("Proposal not pending") is
InvalidState, the 400 of `mark_completed` ("Contract already completed.")
is AlreadyCompleted. -/
inductive ApiError where
  | NotFound
  | Unauthorized
  | InvalidState
  | AlreadyCompleted
deriving Repr, DecidableEq

/-- DRF `ProposalViewSet.get_queryset`: clients see proposals of their own
projects, freelancers see their own proposals, anyone else sees none. -/
def proposalQueryset (db : DB) (u : User) : List Proposal :=
  if u.is_client then
    db.proposals.filter (fun p => projectClientOf db p.project == some u.id)
  else if u.is_freelancer then
    db.proposals.filter (fun p => p.freelancer == u.id)
  else []

/-- DRF `self.get_object()` inside `ProposalViewSet.accept`:
`get_object_or_404` over the role-scoped queryset. -/
def getObjectProposal (db : DB) (u : User) (pk : Nat) : Option Proposal :=
  (proposalQueryset db u).find? (fun p => p.id == pk)

/-- DRF `ProposalViewSet.accept`: 403 unless the requester is the client
owning the project; 400 unless the proposal is Pending; otherwise set the
status to Accepted and save (which fires the contract-creating
receivers), get_or_create the contract, notify the freelancer, and return
the contract id. -/
def accept (db : DB) (requestUser : User) (pk : Nat) :
    Except ApiError (DB × Nat) :=
  match getObjectProposal db requestUser pk with
  | none => .error .NotFound
  | some proposal =>
    if projectClientOf db proposal.project != some requestUser.id then
      .error .Unauthorized
    else if proposal.status != "Pending" then
      .error .InvalidState
    else
      let accepted := { proposal with status := "Accepted" }
      let db1 := proposalSave db accepted
      let res :=
        match contractOfProposal db1 accepted.id with
        | some c => (db1, c)
        | none =>
          contractCreate db1 accepted.id
            ((projectClientOf db1 accepted.project).getD 0)
            accepted.freelancer accepted.bid_amount "Active"
      let db3 := create_notification res.1 accepted.freelancer
        ("Your proposal for project \x27" ++ projectTitleOf res.1 accepted.project
          ++ "\x27 has been accepted!")
        ("/contracts/" ++ toString res.2.id ++ "/")
      .ok (db3, res.2.id)

/-- DRF `ContractViewSet.mark_completed`: the contract is looked up over all
contracts (`get_object_or_404(Contract, pk=pk)`), with no
actor-relationship check; an already Completed contract is rejected;
otherwise set Completed, save (which fires the dual-notification
receiver), then create one more notification for the freelancer. -/
def mark_completed (db : DB) (requestUser : User) (pk : Nat) :
    Except ApiError DB :=
  match findContract db pk with
  | none => .error .NotFound
  | some contract =>
    if contract.status == "Completed" then .error .AlreadyCompleted
    else
      let completed := { contract with status := "Completed" }
      let db1 := contractSave db completed
      let db2 := notificationCreate db1 completed.freelancer
        ("🎉 Your contract for \x27"
          ++ proposalProjectTitleOf db1 completed.proposal
          ++ "\x27 has been marked as completed!")
        none "system"
      .ok db2

/-- Modelled from the spec: `MessageSerializer` is not under src/; per the
spec, sendMessage requires the sender to be one of the two parties of the
contract (else Unauthorized) and the receiver of the persisted message is the
other party. The message creation fires both post_save receivers, then
`MessageViewSet.perform_create` notifies the computed recipient ("the
other party", from the source). -/
def sendMessage (db : DB) (requestUser : User) (contractId : Nat)
    (text : String) : Except ApiError DB :=
  match findContract db contractId with
  | none => .error .NotFound
  | some contract =>
    if requestUser.id != contract.client &&
        requestUser.id != contract.freelancer then
      .error .Unauthorized
    else
      let receiver :=
        if requestUser.id == contract.client then contract.freelancer
        else contract.client
      let res := messageCreate db contractId requestUser.id receiver text
      let recipient :=
        if res.2.sender == contract.client then contract.freelancer
        else contract.client
      let db2 := create_notification res.1 recipient
        ("New message in your contract chat for \x27"
          ++ proposalProjectTitleOf res.1 contract.proposal ++ "\x27.")
        ("/contracts/" ++ toString contract.id ++ "/messages/")
      .ok db2

/-- DRF `NotificationViewSet.get_queryset`: only the notifications of the
requesting user. -/
def notificationQueryset (db : DB) (u : User) : List Notification :=
  db.notifications.filter (fun n => n.user == u.id)

/-- Replace the notification row that has the id of the instance, or insert it. -/
def upsertNotification (l : List Notification) (n : Notification) :
    List Notification :=
  if l.any (fun x => x.id == n.id) then
    l.map (fun x => if x.id == n.id then n else x)
  else l ++ [n]

/-- DRF `NotificationViewSet.mark_as_read`: a get by pk
over the user-scoped queryset, 404 on DoesNotExist, otherwise set
`is_read = True` and save. -/
def mark_as_read (db : DB) (requestUser : User) (pk : Nat) :
    Except ApiError DB :=
  match (notificationQueryset db requestUser).find? (fun n => n.id == pk) with
  | none => .error .NotFound
  | some n =>
    .ok { db with
          notifications :=
            upsertNotification db.notifications { n with is_read := true } }

/-- The database the caller holds after an operation returning a plain DB:
on a typed failure the original state is kept (the operation performed no
write). -/
def dbAfter (db : DB) : Except ApiError DB → DB
  | .ok d => d
  | .error _ => db

/-- Same, for `accept`, which also returns the contract id. -/
def dbAfterAccept (db : DB) : Except ApiError (DB × Nat) → DB
  | .ok d => d.1
  | .error _ => db

end TalentLink

namespace TalentLink

/-- The proposal row as `accept` persists it. -/
def acceptedRow (p : Proposal) : Proposal := { p with status := "Accepted" }

/-- The contract the `create_contract_on_accept` receiver inserts during a
successful `accept` (fresh id, snapshot of client, freelancer and bid). -/
def acceptContract (db : DB) (u : User) (p : Proposal) : Contract :=
  ⟨db.nextId, p.id, u.id, p.freelancer, p.bid_amount, "Active", none, none⟩

/-- The single acceptance notification `accept` sends to the freelancer. -/
def acceptNotification (db : DB) (p : Proposal) : Notification :=
  ⟨db.nextId + 1, p.freelancer,
   "Your proposal for project \x27" ++ projectTitleOf db p.project
     ++ "\x27 has been accepted!",
   some ("/contracts/" ++ toString db.nextId ++ "/"), "system", false⟩

/-- The database a successful `accept` leaves behind. -/
def acceptResultDB (db : DB) (u : User) (p : Proposal) : DB :=
  { db with
    proposals := upsertProposal db.proposals (acceptedRow p),
    contracts := db.contracts ++ [acceptContract db u p],
    notifications := db.notifications ++ [acceptNotification db p],
    nextId := db.nextId + 1 + 1 }

end TalentLink

namespace TalentLink

/-- On a list whose mapped keys are distinct, `find?` for a predicate that
pins the key returns the designated element. -/
theorem find?_eq_some_of_nodup_key {α : Type} (key : α → Nat) (P : α → Bool) :
    ∀ (l : List α) (x : α), (l.map key).Nodup → x ∈ l → P x = true →
      (∀ a ∈ l, P a = true → key a = key x) → l.find? P = some x := by
  intro l
  induction l with
  | nil => intro x _ hx; exact absurd hx (List.not_mem_nil x)
  | cons a t ih =>
    intro x hnd hmem hPx himp
    rw [List.map_cons] at hnd
    have hnd' := List.nodup_cons.mp hnd
    by_cases hPa : P a = true
    · have hkey : key a = key x := himp a (List.mem_cons_self a t) hPa
      have hax : a = x := by
        by_contra hne
        have hxt : x ∈ t := by
          rcases List.mem_cons.mp hmem with h | h
          · exact absurd h.symm hne
          · exact h
        exact hnd'.1 (hkey ▸ List.mem_map_of_mem key hxt)
      rw [List.find?_cons_of_pos _ hPa, hax]
    · have hxt : x ∈ t := by
        rcases List.mem_cons.mp hmem with h | h
        · exact absurd (h ▸ hPx) hPa
        · exact h
      rw [List.find?_cons_of_neg _ hPa]
      exact ih x hnd'.2 hxt hPx
        (fun b hb hPb => himp b (List.mem_cons_of_mem a hb) hPb)

/-- Updating a row in place (the map branch of an upsert) makes the
keyed `find?` over a filtered view return the updated row, provided the
updated row still passes the filter. -/
theorem find?_filter_map_replace (F : Proposal → Bool) (pk : Nat)
    (p' : Proposal) (hid : p'.id = pk) (hF : F p' = true) :
    ∀ (l : List Proposal) (p : Proposal),
      (l.filter F).find? (fun q => q.id == pk) = some p →
      ((l.map (fun x => if x.id == p'.id then p' else x)).filter F).find?
        (fun q => q.id == pk) = some p' := by
  intro l
  induction l with
  | nil => intro p h; simp [List.filter] at h
  | cons a t ih =>
    intro p h
    by_cases ha : a.id = pk
    · have hra : (if a.id == p'.id then p' else a) = p' := by
        simp [ha, hid]
      rw [List.map_cons, hra, List.filter_cons_of_pos hF]
      exact List.find?_cons_of_pos _ (by simp [hid])
    · have hra : (if a.id == p'.id then p' else a) = a := by
        simp [hid, ha]
      by_cases hFa : F a = true
      · rw [List.filter_cons_of_pos hFa,
          List.find?_cons_of_neg _ (by simp [ha])] at h
        rw [List.map_cons, hra, List.filter_cons_of_pos hFa,
          List.find?_cons_of_neg _ (by simp [ha])]
        exact ih p h
      · rw [List.filter_cons_of_neg (by simpa using hFa)] at h
        rw [List.map_cons, hra, List.filter_cons_of_neg (by simpa using hFa)]
        exact ih p h

end TalentLink

namespace TalentLink

/-- Successful path of `ProposalViewSet.accept`: when the queryset of the
requester resolves the proposal, the requester is the client owning the
project, the proposal is Pending and no contract exists for it yet, the
action persists the Accepted row, the receiver inserts exactly one
contract (snapshotting the bid), and exactly one notification goes to the
freelancer; the id of the new contract is returned. -/
theorem accept_ok (db : DB) (u : User) (pk : Nat) (p : Proposal)
    (hq : getObjectProposal db u pk = some p)
    (hcl : projectClientOf db p.project = some u.id)
    (hpend : p.status = "Pending")
    (hnoc : contractOfProposal db p.id = none) :
    accept db u pk = .ok (acceptResultDB db u p, db.nextId) := by
  have hnoc' : List.find? (fun c => c.proposal == p.id) db.contracts = none := by
    simpa [contractOfProposal] using hnoc
  obtain ⟨pr0, hpr0, hprc⟩ :
      ∃ pr0, List.find? (fun pr => pr.id == p.project) db.projects = some pr0
        ∧ pr0.client = u.id := by
    simpa [projectClientOf, findProject, Option.map_eq_some'] using hcl
  simp [accept, hq, hcl, hpend, proposalSave, hpr0, hprc,
    create_contract_on_accept_models, create_contract_on_accept_signals,
    contractOfProposal, contractCreate, notify_on_contract_status_change,
    create_notification, notificationCreate, hnoc',
    List.find?_append, acceptResultDB, acceptedRow, acceptContract,
    acceptNotification, projectTitleOf, findProject, projectClientOf]

end TalentLink

namespace TalentLink

/-- Lemma: `projectClientOf` only reads the projects table. -/
theorem projectClientOf_congr (db db2 : DB) (h : db2.projects = db.projects)
    (pid : Nat) : projectClientOf db2 pid = projectClientOf db pid := by
  simp [projectClientOf, findProject, h]

/-- A second `accept` against the state a successful `accept` left behind
is rejected with InvalidState ("Proposal not pending"): the persisted row
is Accepted, so the pending guard fires before any write. -/
theorem accept_again_invalid (db : DB) (u : User) (pk : Nat) (p : Proposal)
    (hu : u.is_client = true)
    (hq : getObjectProposal db u pk = some p)
    (hcl : projectClientOf db p.project = some u.id) :
    accept (acceptResultDB db u p) u pk = .error .InvalidState := by
  have hq' : (db.proposals.filter
      (fun q => projectClientOf db q.project == some u.id)).find?
      (fun q => q.id == pk) = some p := by
    simpa [getObjectProposal, proposalQueryset, hu] using hq
  have hpk : p.id = pk := by
    have := List.find?_some hq'
    simpa using this
  have hmem : p ∈ db.proposals :=
    List.mem_of_mem_filter (List.mem_of_find?_eq_some hq')
  have hany : db.proposals.any
      (fun x => x.id == (acceptedRow p).id) = true :=
    List.any_eq_true.mpr ⟨p, hmem, by simp [acceptedRow]⟩
  have hproj : ∀ pid, projectClientOf (acceptResultDB db u p) pid
      = projectClientOf db pid :=
    fun pid => projectClientOf_congr db (acceptResultDB db u p) rfl pid
  have hrepl := find?_filter_map_replace
    (fun q => projectClientOf db q.project == some u.id) pk (acceptedRow p)
    (by simpa [acceptedRow] using hpk) (by simp [acceptedRow, hcl])
    db.proposals p hq'
  have hq2 : getObjectProposal (acceptResultDB db u p) u pk
      = some (acceptedRow p) := by
    simp only [getObjectProposal, proposalQueryset, hu, if_pos, hproj]
    have hps : (acceptResultDB db u p).proposals
        = upsertProposal db.proposals (acceptedRow p) := rfl
    rw [hps, upsertProposal, if_pos hany]
    exact hrepl
  simp [accept, hq2, hproj, hcl, acceptedRow]

def exClient : User := ⟨1, "alice", true, false⟩
def exFreelancer : User := ⟨2, "bob", false, true⟩
def exOtherClient : User := ⟨3, "carol", true, false⟩
def exProject : Project := ⟨10, 1, "Site"⟩
def exPendingProposal : Proposal := ⟨20, 10, 2, "I can do it", 100, "Pending"⟩

/-- A minimal consistent state: one client, one freelancer, one extra
client, one project of the client, one pending proposal of the
freelancer. -/
def exDb : DB :=
  ⟨[exClient, exFreelancer, exOtherClient], [exProject],
   [exPendingProposal], [], [], [], 100⟩

def exAcceptedProposal : Proposal := ⟨20, 10, 2, "I can do it", 100, "Accepted"⟩
def exActiveContract : Contract := ⟨30, 20, 1, 2, 100, "Active", none, none⟩

/-- The state after acceptance: the proposal is Accepted and its Active
contract exists. -/
def exDbActive : DB :=
  ⟨[exClient, exFreelancer, exOtherClient], [exProject],
   [exAcceptedProposal], [exActiveContract], [], [], 100⟩

def exCompletedContract : Contract := ⟨30, 20, 1, 2, 100, "Completed", none, none⟩

/-- The state after completion of the contract. -/
def exDbCompleted : DB :=
  ⟨[exClient, exFreelancer, exOtherClient], [exProject],
   [exAcceptedProposal], [exCompletedContract], [], [], 100⟩

end TalentLink

namespace TalentLink

/-- C1 (corrected): accepting twice yields exactly one Contract and
exactly one acceptance notification for the freelancer, but the second
call does not return the same Contract id: it fails with InvalidState
("Proposal not pending") and changes nothing. -/
theorem C1_accept_twice_one_contract (db : DB) (u : User) (pk : Nat)
    (p : Proposal)
    (hu : u.is_client = true)
    (hq : getObjectProposal db u pk = some p)
    (hcl : projectClientOf db p.project = some u.id)
    (hpend : p.status = "Pending")
    (hnoc : contractOfProposal db p.id = none) :
    accept db u pk = .ok (acceptResultDB db u p, db.nextId)
    ∧ (acceptResultDB db u p).contracts
        = db.contracts ++ [acceptContract db u p]
    ∧ (acceptResultDB db u p).notifications
        = db.notifications ++ [acceptNotification db p]
    ∧ (acceptNotification db p).user = p.freelancer
    ∧ accept (acceptResultDB db u p) u pk = .error ApiError.InvalidState
    ∧ dbAfterAccept (acceptResultDB db u p)
        (accept (acceptResultDB db u p) u pk) = acceptResultDB db u p := by
  have h1 := accept_ok db u pk p hq hcl hpend hnoc
  have h2 := accept_again_invalid db u pk p hu hq hcl
  exact ⟨h1, rfl, rfl, rfl, h2, by rw [h2]; rfl⟩

/-- C1 counterexample to the claim as stated: on the example state the
first `accept` succeeds and returns contract id 100, but the second
`accept` returns the InvalidState failure, not the same Contract id. -/
theorem C1_counterexample :
    accept exDb exClient 20
      = Except.ok (acceptResultDB exDb exClient exPendingProposal, 100)
    ∧ accept (acceptResultDB exDb exClient exPendingProposal) exClient 20
      = Except.error ApiError.InvalidState
    ∧ (Except.error ApiError.InvalidState : Except ApiError (DB × Nat))
        ≠ Except.ok (acceptResultDB exDb exClient exPendingProposal, 100) := by
  exact ⟨rfl, rfl, fun h => Except.noConfusion h⟩

/-- C1 witness: the amended theorem applied to the example state. -/
theorem C1_witness :
    accept exDb exClient 20
      = Except.ok (acceptResultDB exDb exClient exPendingProposal, exDb.nextId)
    ∧ accept (acceptResultDB exDb exClient exPendingProposal) exClient 20
      = Except.error ApiError.InvalidState := by
  have h := C1_accept_twice_one_contract exDb exClient 20 exPendingProposal
    (by decide) (by decide) (by decide) (by decide) (by decide)
  exact ⟨h.1, h.2.2.2.2.1⟩

/-- C2 (confirmed): `mark_completed` on an already Completed contract
fails with AlreadyCompleted and leaves the state untouched: no status
write, no notification. -/
theorem C2_complete_already_completed (db : DB) (u : User) (pk : Nat)
    (c : Contract)
    (hc : findContract db pk = some c)
    (hst : c.status = "Completed") :
    mark_completed db u pk = .error ApiError.AlreadyCompleted
    ∧ dbAfter db (mark_completed db u pk) = db := by
  have h : mark_completed db u pk = .error ApiError.AlreadyCompleted := by
    simp [mark_completed, hc, hst]
  exact ⟨h, by rw [h]; rfl⟩

/-- C2 witness: the theorem applied to the completed example state. -/
theorem C2_witness :
    mark_completed exDbCompleted exClient 30
      = Except.error ApiError.AlreadyCompleted
    ∧ dbAfter exDbCompleted (mark_completed exDbCompleted exClient 30)
      = exDbCompleted :=
  C2_complete_already_completed exDbCompleted exClient 30
    exCompletedContract (by decide) (by decide)

end TalentLink

namespace TalentLink

/-- The contract row as `mark_completed` persists it. -/
def completedRow (c : Contract) : Contract := { c with status := "Completed" }

/-- First notification of the completion cascade (signal, to the client). -/
def completeNotifClient (db : DB) (c : Contract) : Notification :=
  ⟨db.nextId, c.client,
   "Your project \x27" ++ proposalProjectTitleOf db c.proposal
     ++ "\x27 has been marked as completed.",
   some ("/contracts/" ++ toString c.id ++ "/"), "project", false⟩

/-- Second notification of the completion cascade (signal, to the
freelancer). -/
def completeNotifFreelancerSignal (db : DB) (c : Contract) : Notification :=
  ⟨db.nextId + 1, c.freelancer,
   "You have successfully completed the project \x27"
     ++ proposalProjectTitleOf db c.proposal ++ "\x27.",
   some ("/contracts/" ++ toString c.id ++ "/"), "project", false⟩

/-- Third notification of the completion flow (created explicitly by the
view, to the freelancer again). -/
def completeNotifFreelancerView (db : DB) (c : Contract) : Notification :=
  ⟨db.nextId + 1 + 1, c.freelancer,
   "🎉 Your contract for \x27" ++ proposalProjectTitleOf db c.proposal
     ++ "\x27 has been marked as completed!",
   none, "system", false⟩

/-- The database a successful `mark_completed` leaves behind. -/
def completeResultDB (db : DB) (c : Contract) : DB :=
  { db with
    contracts := upsertContract db.contracts (completedRow c),
    notifications := db.notifications
      ++ [completeNotifClient db c, completeNotifFreelancerSignal db c,
          completeNotifFreelancerView db c],
    nextId := db.nextId + 1 + 1 + 1 }

/-- Successful path of `ContractViewSet.mark_completed`: the save fires
the dual-notification receiver, then the view adds a third notification
for the freelancer. -/
theorem mark_completed_ok (db : DB) (u : User) (pk : Nat) (c : Contract)
    (hc : findContract db pk = some c)
    (hst : c.status ≠ "Completed") :
    mark_completed db u pk = .ok (completeResultDB db c) := by
  have hst' : (c.status == "Completed") = false := by simp [hst]
  simp [mark_completed, hc, hst', contractSave,
    notify_on_contract_status_change, notificationCreate, completeResultDB,
    completedRow, completeNotifClient, completeNotifFreelancerSignal,
    completeNotifFreelancerView, proposalProjectTitleOf, projectTitleOf,
    findProject, List.append_assoc]

end TalentLink

namespace TalentLink

/-- C3 (corrected): completing a not-yet-Completed contract sets the
status to Completed, but emits three notifications, not two: the save
receiver notifies the client and the freelancer, and the view then adds a
second freelancer notification, so the client receives exactly one and
the freelancer exactly two. -/
theorem C3_complete_notification_fanout (db : DB) (u : User) (pk : Nat)
    (c : Contract)
    (hc : findContract db pk = some c)
    (hst : c.status ≠ "Completed")
    (hne : c.client ≠ c.freelancer) :
    mark_completed db u pk = .ok (completeResultDB db c)
    ∧ (completedRow c).status = "Completed"
    ∧ (completeResultDB db c).notifications
        = db.notifications ++ [completeNotifClient db c,
            completeNotifFreelancerSignal db c, completeNotifFreelancerView db c]
    ∧ (completeNotifClient db c).user = c.client
    ∧ (completeNotifFreelancerSignal db c).user = c.freelancer
    ∧ (completeNotifFreelancerView db c).user = c.freelancer
    ∧ ((completeResultDB db c).notifications.filter
        (fun n => n.user == c.client)).length
      = (db.notifications.filter (fun n => n.user == c.client)).length + 1
    ∧ ((completeResultDB db c).notifications.filter
        (fun n => n.user == c.freelancer)).length
      = (db.notifications.filter (fun n => n.user == c.freelancer)).length + 2
    ∧ (completeResultDB db c).notifications.length
        = db.notifications.length + 3 := by
  have hfc : (c.freelancer == c.client) = false := by
    simp [beq_eq_false_iff_ne]
    exact fun h => hne h.symm
  have hcf : (c.client == c.freelancer) = false := by
    simp [beq_eq_false_iff_ne]
    exact hne
  refine ⟨mark_completed_ok db u pk c hc hst, rfl, rfl, rfl, rfl, rfl, ?_, ?_, ?_⟩
  · simp [completeResultDB, List.filter_append, completeNotifClient,
      completeNotifFreelancerSignal, completeNotifFreelancerView, hfc]
  · simp [completeResultDB, List.filter_append, completeNotifClient,
      completeNotifFreelancerSignal, completeNotifFreelancerView, hcf]
  · simp [completeResultDB]

/-- C3 counterexample to the claim as stated: on the example state the
completion creates three notifications, two of which are addressed to the
freelancer, so "exactly one notification to each party, exactly two
total" is false. -/
theorem C3_counterexample :
    ((dbAfter exDbActive (mark_completed exDbActive exClient 30)).notifications.filter
        (fun n => n.user == 2)).length = 2
    ∧ ¬(((dbAfter exDbActive (mark_completed exDbActive exClient 30)).notifications.filter
        (fun n => n.user == 2)).length = 1)
    ∧ (dbAfter exDbActive (mark_completed exDbActive exClient 30)).notifications.length
        = exDbActive.notifications.length + 3
    ∧ ¬((dbAfter exDbActive (mark_completed exDbActive exClient 30)).notifications.length
        = exDbActive.notifications.length + 2) := by
  exact ⟨by decide, by decide, by decide, by decide⟩

/-- C3 witness: the amended theorem applied to the example state. -/
theorem C3_witness :
    mark_completed exDbActive exClient 30
      = Except.ok (completeResultDB exDbActive exActiveContract)
    ∧ ((completeResultDB exDbActive exActiveContract).notifications.filter
        (fun n => n.user == exActiveContract.freelancer)).length
      = (exDbActive.notifications.filter
          (fun n => n.user == exActiveContract.freelancer)).length + 2 := by
  have h := C3_complete_notification_fanout exDbActive exClient 30
    exActiveContract (by decide) (by decide) (by decide)
  exact ⟨h.1, h.2.2.2.2.2.2.2.1⟩

end TalentLink

namespace TalentLink

/-- The party of a contract that is not the sender, as
`MessageViewSet.perform_create` computes the recipient. -/
def otherParty (c : Contract) (uid : Nat) : Nat :=
  if uid == c.client then c.freelancer else c.client

/-- The message row `sendMessage` persists. -/
def messageRow (db : DB) (c : Contract) (uid : Nat) (text : String) : Message :=
  ⟨db.nextId, c.id, uid, otherParty c uid, text, false⟩

/-- Notification created by the models.py message receiver. -/
def msgNotifModels (db : DB) (c : Contract) (uid : Nat) : Notification :=
  ⟨db.nextId + 1, otherParty c uid,
   "New message from " ++ usernameOf db uid,
   some ("/contracts/" ++ toString c.id ++ "/chat"), "message", false⟩

/-- Notification created by the signals.py message receiver. -/
def msgNotifSignals (db : DB) (c : Contract) (uid : Nat) : Notification :=
  ⟨db.nextId + 1 + 1, otherParty c uid,
   "New message from " ++ usernameOf db uid,
   some ("/contracts/" ++ toString c.id ++ "/chat"), "system", false⟩

/-- Notification created explicitly by `MessageViewSet.perform_create`. -/
def msgNotifView (db : DB) (c : Contract) (uid : Nat) : Notification :=
  ⟨db.nextId + 1 + 1 + 1, otherParty c uid,
   "New message in your contract chat for \x27"
     ++ proposalProjectTitleOf db c.proposal ++ "\x27.",
   some ("/contracts/" ++ toString c.id ++ "/messages/"), "system", false⟩

/-- The database a successful `sendMessage` leaves behind. -/
def sendMessageResultDB (db : DB) (c : Contract) (uid : Nat)
    (text : String) : DB :=
  { db with
    messages := db.messages ++ [messageRow db c uid text],
    notifications := db.notifications
      ++ [msgNotifModels db c uid, msgNotifSignals db c uid,
          msgNotifView db c uid],
    nextId := db.nextId + 1 + 1 + 1 + 1 }

/-- C4 (corrected): a message on contract C by one of its parties always
notifies the other party, but creates three notifications (two redundant
post_save receivers plus the explicit one of the view), not exactly one; all
three are addressed to the party that is not the sender. -/
theorem C4_message_notifies_other_party (db : DB) (u : User) (cid : Nat)
    (c : Contract) (text : String)
    (hc : findContract db cid = some c)
    (hparty : u.id = c.client ∨ u.id = c.freelancer) :
    sendMessage db u cid text = .ok (sendMessageResultDB db c u.id text)
    ∧ (sendMessageResultDB db c u.id text).messages
        = db.messages ++ [messageRow db c u.id text]
    ∧ (sendMessageResultDB db c u.id text).notifications
        = db.notifications ++ [msgNotifModels db c u.id,
            msgNotifSignals db c u.id, msgNotifView db c u.id]
    ∧ (msgNotifModels db c u.id).user = otherParty c u.id
    ∧ (msgNotifSignals db c u.id).user = otherParty c u.id
    ∧ (msgNotifView db c u.id).user = otherParty c u.id
    ∧ (u.id = c.client → otherParty c u.id = c.freelancer)
    ∧ (u.id ≠ c.client → u.id = c.freelancer → otherParty c u.id = c.client) := by
  have hcid : c.id = cid := by simpa using List.find?_some hc
  subst hcid
  refine ⟨?_, rfl, rfl, rfl, rfl, rfl,
    fun h => by simp [otherParty, h],
    fun h1 _ => by simp [otherParty, h1]⟩
  rcases hparty with h | h
  · simp [sendMessage, hc, h, messageCreate,
      create_notification_on_message_models,
      create_notification_on_message_signals, notificationCreate,
      create_notification, sendMessageResultDB, messageRow, msgNotifModels,
      msgNotifSignals, msgNotifView, otherParty, usernameOf, findUser,
      proposalProjectTitleOf, projectTitleOf, findProject, List.append_assoc]
  · have hguard : (u.id != c.freelancer) = false := by simp [h]
    simp [sendMessage, hc, hguard, messageCreate,
      create_notification_on_message_models,
      create_notification_on_message_signals, notificationCreate,
      create_notification, sendMessageResultDB, messageRow, msgNotifModels,
      msgNotifSignals, msgNotifView, otherParty, usernameOf, findUser,
      proposalProjectTitleOf, projectTitleOf, findProject, List.append_assoc]

/-- C4 counterexample to the claim as stated: on the example state one
message from the client creates three notifications for the freelancer,
not exactly one. -/
theorem C4_counterexample :
    ((dbAfter exDbActive (sendMessage exDbActive exClient 30 "hello")).notifications.filter
        (fun n => n.user == 2)).length = 3
    ∧ ¬((dbAfter exDbActive (sendMessage exDbActive exClient 30 "hello")).notifications.length
        = exDbActive.notifications.length + 1) := by
  exact ⟨by decide, by decide⟩

/-- C4 witness: the amended theorem applied to the example state, in both
directions. -/
theorem C4_witness :
    sendMessage exDbActive exClient 30 "hello"
      = Except.ok (sendMessageResultDB exDbActive exActiveContract 1 "hello")
    ∧ otherParty exActiveContract 1 = 2
    ∧ sendMessage exDbActive exFreelancer 30 "hi"
      = Except.ok (sendMessageResultDB exDbActive exActiveContract 2 "hi")
    ∧ otherParty exActiveContract 2 = 1 := by
  have h1 := C4_message_notifies_other_party exDbActive exClient 30
    exActiveContract "hello" (by decide) (Or.inl (by decide))
  have h2 := C4_message_notifies_other_party exDbActive exFreelancer 30
    exActiveContract "hi" (by decide) (Or.inr (by decide))
  exact ⟨h1.1, h1.2.2.2.2.2.2.1 (by decide), h2.1,
    h2.2.2.2.2.2.2.2 (by decide) (by decide)⟩

/-- C5 (confirmed, against the spec-modelled serializer check): a user
who is neither the client nor the freelancer of the contract gets Unauthorized
from sendMessage, and neither a Message nor a Notification is created. -/
theorem C5_unauthorized_sender (db : DB) (u : User) (cid : Nat)
    (c : Contract) (text : String)
    (hc : findContract db cid = some c)
    (h1 : u.id ≠ c.client) (h2 : u.id ≠ c.freelancer) :
    sendMessage db u cid text = .error ApiError.Unauthorized
    ∧ dbAfter db (sendMessage db u cid text) = db := by
  have h : sendMessage db u cid text = .error ApiError.Unauthorized := by
    simp [sendMessage, hc, h1, h2]
  exact ⟨h, by rw [h]; rfl⟩

/-- C5 witness: the theorem applied to a third user on the example
contract. -/
theorem C5_witness :
    sendMessage exDbActive exOtherClient 30 "hi"
      = Except.error ApiError.Unauthorized
    ∧ dbAfter exDbActive (sendMessage exDbActive exOtherClient 30 "hi")
      = exDbActive :=
  C5_unauthorized_sender exDbActive exOtherClient 30 exActiveContract "hi"
    (by decide) (by decide) (by decide)

end TalentLink

namespace TalentLink

/-- C6 (corrected): `accept` fails with NotFound when the role-scoped
queryset does not resolve the proposal (which includes clients who do not
own the project), Unauthorized when it resolves but the actor is not the
client owning the project, and InvalidState when the actor is the client
but the proposal is not Pending; every failure leaves the state
unchanged, creating no contract and no notification. -/
theorem C6_accept_failures (db : DB) (u : User) (pk : Nat) :
    (getObjectProposal db u pk = none →
      accept db u pk = .error ApiError.NotFound)
    ∧ (∀ p, getObjectProposal db u pk = some p →
        projectClientOf db p.project ≠ some u.id →
        accept db u pk = .error ApiError.Unauthorized)
    ∧ (∀ p, getObjectProposal db u pk = some p →
        projectClientOf db p.project = some u.id →
        p.status ≠ "Pending" →
        accept db u pk = .error ApiError.InvalidState)
    ∧ (∀ e, accept db u pk = .error e →
        dbAfterAccept db (accept db u pk) = db) := by
  refine ⟨?_, ?_, ?_, ?_⟩
  · intro h; simp [accept, h]
  · intro p hq hne
    have hbne : (projectClientOf db p.project != some u.id) = true := by
      simp [bne_iff_ne, hne]
    simp [accept, hq, hbne]
  · intro p hq hcl hst
    have hst' : (p.status != "Pending") = true := by simp [bne_iff_ne, hst]
    simp [accept, hq, hcl, hst']
  · intro e he; rw [he]; rfl

/-- C6 counterexample to the claim as stated: a client who is not the
client owning the project gets NotFound from the scoped queryset, not
Unauthorized. -/
theorem C6_counterexample :
    accept exDb exOtherClient 20 = Except.error ApiError.NotFound
    ∧ ApiError.NotFound ≠ ApiError.Unauthorized :=
  ⟨rfl, by decide⟩

/-- C6 witness: the amended theorem applied to the freelancer, who can
see the proposal but is not the client of the project. -/
theorem C6_witness :
    accept exDb exFreelancer 20 = Except.error ApiError.Unauthorized :=
  (C6_accept_failures exDb exFreelancer 20).2.1 exPendingProposal
    (by decide) (by decide)

/-- C7 (confirmed): the contract snapshots the bid at creation
(payment_amount equals the bid_amount of the proposal), and saving the
proposal later with a different bid leaves the contracts table, and so
the existing contract, entirely unchanged. -/
theorem C7_payment_snapshot (db : DB) (u : User) (pk : Nat) (p : Proposal)
    (hq : getObjectProposal db u pk = some p)
    (hcl : projectClientOf db p.project = some u.id)
    (hpend : p.status = "Pending")
    (hnoc : contractOfProposal db p.id = none)
    (db2 : DB) (p2 : Proposal) (b : Int) (c0 : Contract)
    (hc0 : contractOfProposal db2 p2.id = some c0) :
    (accept db u pk = .ok (acceptResultDB db u p, db.nextId)
      ∧ (acceptResultDB db u p).contracts
          = db.contracts ++ [acceptContract db u p]
      ∧ (acceptContract db u p).payment_amount = p.bid_amount)
    ∧ (proposalSave db2 { p2 with bid_amount := b }).contracts
        = db2.contracts := by
  refine ⟨⟨accept_ok db u pk p hq hcl hpend hnoc, rfl, rfl⟩, ?_⟩
  have hc0' : List.find? (fun c => c.proposal == p2.id) db2.contracts
      = some c0 := by
    simpa [contractOfProposal] using hc0
  simp [proposalSave, create_contract_on_accept_models,
    create_contract_on_accept_signals, contractOfProposal, hc0']

/-- C7 witness: the theorem applied to the example state, with the bid
later rewritten to 999. -/
theorem C7_witness :
    (accept exDb exClient 20
        = Except.ok (acceptResultDB exDb exClient exPendingProposal, exDb.nextId)
      ∧ (acceptContract exDb exClient exPendingProposal).payment_amount
          = exPendingProposal.bid_amount)
    ∧ (proposalSave exDbActive
        { exAcceptedProposal with bid_amount := 999 }).contracts
      = exDbActive.contracts := by
  have h := C7_payment_snapshot exDb exClient 20 exPendingProposal
    (by decide) (by decide) (by decide) (by decide)
    exDbActive exAcceptedProposal 999 exActiveContract (by decide)
  exact ⟨⟨h.1.1, h.1.2.2⟩, h.2⟩

/-- Iterate `n` repeated `proposal.save()` calls on the same row. -/
def saveRepeatedly (db : DB) (p : Proposal) : Nat → DB
  | 0 => db
  | n + 1 => proposalSave (saveRepeatedly db p n) p

/-- C8 (confirmed): saving a proposal whose status is Rejected never
touches the contracts table, no matter how often the save is repeated;
in particular no contract for that proposal is ever created. -/
theorem C8_reject_never_creates_contract (db : DB) (p : Proposal) (n : Nat)
    (hst : p.status = "Rejected") :
    (saveRepeatedly db p n).contracts = db.contracts
    ∧ (contractOfProposal db p.id = none →
        contractOfProposal (saveRepeatedly db p n) p.id = none) := by
  have hguard : (p.status == "Accepted") = false := by simp [hst]
  have hmain : (saveRepeatedly db p n).contracts = db.contracts := by
    induction n with
    | zero => rfl
    | succ k ih =>
      have hstep : saveRepeatedly db p (k + 1)
          = proposalSave (saveRepeatedly db p k) p := rfl
      rw [hstep]
      simp [proposalSave, create_contract_on_accept_models,
        create_contract_on_accept_signals, hguard, ih]
  refine ⟨hmain, fun h => ?_⟩
  have h' : List.find? (fun c => c.proposal == p.id) db.contracts = none := by
    simpa [contractOfProposal] using h
  simp [contractOfProposal, hmain, h']

def exRejectedProposal : Proposal := ⟨21, 10, 2, "maybe later", 50, "Rejected"⟩

/-- C8 witness: three repeated saves of a rejected proposal on the
example state. -/
theorem C8_witness :
    (saveRepeatedly exDb exRejectedProposal 3).contracts = exDb.contracts
    ∧ contractOfProposal (saveRepeatedly exDb exRejectedProposal 3) 21
      = none := by
  have h := C8_reject_never_creates_contract exDb exRejectedProposal 3
    (by decide)
  exact ⟨h.1, h.2 (by decide)⟩

end TalentLink

namespace TalentLink

/-- C9 (code bug in the source, per the claim): the completion receiver
fires on every save while the status is "Completed", so re-saving a
Completed contract (e.g. to write a rating or review) emits two more
notifications instead of zero. -/
theorem C9_completed_resave_refires (db : DB) (c : Contract)
    (r : Option Nat) (rv : Option String)
    (hst : c.status = "Completed") :
    (contractSave db { c with rating := r, review := rv }).notifications
      = db.notifications
        ++ [completeNotifClient db c, completeNotifFreelancerSignal db c]
    ∧ (contractSave db { c with rating := r, review := rv }).notifications.length
      = db.notifications.length + 2 := by
  have h : (contractSave db { c with rating := r, review := rv }).notifications
      = db.notifications
        ++ [completeNotifClient db c, completeNotifFreelancerSignal db c] := by
    simp [contractSave, notify_on_contract_status_change, hst,
      notificationCreate, completeNotifClient, completeNotifFreelancerSignal,
      proposalProjectTitleOf, projectTitleOf, findProject, List.append_assoc]
  exact ⟨h, by rw [h]; simp⟩

/-- C9 witness: writing a rating on the completed example contract
re-fires the cascade. -/
theorem C9_witness :
    (contractSave exDbCompleted
        { exCompletedContract with rating := some 5, review := none }).notifications.length
      = exDbCompleted.notifications.length + 2 :=
  (C9_completed_resave_refires exDbCompleted exCompletedContract
    (some 5) none (by decide)).2

/-- The state `mark_as_read` leaves behind on success: the addressed
notification row with `is_read` set, all other rows untouched. -/
def markReadResultDB (db : DB) (N : Notification) : DB :=
  { db with
    notifications := db.notifications.map
      (fun m => if m.id == N.id then { N with is_read := true } else m) }

/-- C10 (confirmed): `mark_as_read` operates on the user-scoped queryset:
a notification not addressed to the requester yields NotFound with no
state change; one addressed to the requester has exactly its `is_read`
flag set, every other row and field untouched. -/
theorem C10_mark_as_read_scoped (db : DB) (u : User) (N : Notification)
    (hmem : N ∈ db.notifications)
    (hnd : (db.notifications.map (fun n => n.id)).Nodup) :
    (N.user ≠ u.id →
      mark_as_read db u N.id = .error ApiError.NotFound
      ∧ dbAfter db (mark_as_read db u N.id) = db)
    ∧ (N.user = u.id →
      mark_as_read db u N.id = .ok (markReadResultDB db N)) := by
  constructor
  · intro hneq
    have hnone : (notificationQueryset db u).find?
        (fun n => n.id == N.id) = none := by
      rw [notificationQueryset, List.find?_filter]
      apply List.find?_eq_none.mpr
      intro x hx hP
      simp only [decide_eq_true_eq] at hP
      have hid : x.id = N.id := by simpa using hP.2
      have hxN : x = N := List.inj_on_of_nodup_map hnd hx hmem hid
      have huser : N.user = u.id := by simpa [hxN] using hP.1
      exact hneq huser
    have h : mark_as_read db u N.id = .error ApiError.NotFound := by
      simp [mark_as_read, hnone]
    exact ⟨h, by rw [h]; rfl⟩
  · intro huser
    have hsome : (notificationQueryset db u).find?
        (fun n => n.id == N.id) = some N := by
      rw [notificationQueryset, List.find?_filter]
      apply find?_eq_some_of_nodup_key (fun n => n.id) _ db.notifications N
        hnd hmem
      · simp [huser]
      · intro a _ hP
        simp only [decide_eq_true_eq] at hP
        simpa using hP.2
    have hany : db.notifications.any
        (fun x => x.id == ({ N with is_read := true } : Notification).id)
        = true :=
      List.any_eq_true.mpr ⟨N, hmem, by simp⟩
    simp [mark_as_read, hsome, upsertNotification, hany, markReadResultDB]

def exNotification : Notification := ⟨40, 2, "msg", none, "system", false⟩

/-- Example state with one notification addressed to the freelancer. -/
def exDbNotif : DB :=
  ⟨[exClient, exFreelancer, exOtherClient], [exProject],
   [exPendingProposal], [], [], [exNotification], 100⟩

/-- C10 witness: the theorem applied in both directions on the example
state. -/
theorem C10_witness :
    (mark_as_read exDbNotif exClient 40 = Except.error ApiError.NotFound)
    ∧ mark_as_read exDbNotif exFreelancer 40
      = Except.ok (markReadResultDB exDbNotif exNotification) := by
  have h1 := (C10_mark_as_read_scoped exDbNotif exClient exNotification
    (by decide) (by decide)).1 (by decide)
  have h2 := (C10_mark_as_read_scoped exDbNotif exFreelancer exNotification
    (by decide) (by decide)).2 (by decide)
  exact ⟨h1.1, h2⟩

end TalentLink
